import Mathlib

/-!
Shallow embedding of the transaction-processing core of the repository.

Primary model: src/src/account.rs (the `Account` state machine with the
enumerated error type `TransactionProcessingError`).  The per-account drain
loop comes from src/src/main.rs (`main`, the `while !account_lock
.process_pending_transaction().is_err() {}` loop); main.rs also holds a
near-duplicate in-file copy of `Account` that differs from account.rs only
in the error payload type (String) and in tracking `total` incrementally
instead of recomputing it, agreeing on all balances and control flow the
claims mention.

Monetary amounts are `f32` in the source; they are modelled here as exact
rationals (`ℚ`), since every claim is about the control flow and the
additive bookkeeping of the state machine, not about rounding.  `u16`/`u32`
identifiers are modelled as `Nat` (no arithmetic is ever performed on them,
so overflow cannot matter).  The `HashMap<u32, Transaction>` history is
modelled as an association list with first-match lookup and
replace-on-insert, matching the unique-key behaviour of the source map.
-/

/-- TransactionType from src/src/main.rs lines 8-20. -/
inductive TransactionType where
  | Deposit
  | Withdrawal
  | Dispute
  | Resolve
  | Chargeback
  deriving DecidableEq, Repr

/-- Transaction record from src/src/main.rs lines 22-30. -/
structure Transaction where
  transaction_type : TransactionType
  client : Nat
  tx : Nat
  amount : Option ℚ
  deriving DecidableEq, Repr

/-- Account from src/src/account.rs lines 6-17.  `pending_transactions` is
the VecDeque (head = front); `transactions_history` is the HashMap as an
association list. -/
structure Account where
  client : Nat
  available : ℚ
  held : ℚ
  total : ℚ
  locked : Bool
  pending_transactions : List Transaction
  transactions_history : List (Nat × Transaction)
  deriving DecidableEq, Repr

/-- TransactionProcessingError from src/src/account.rs lines 19-28.
`AccountLocked` carries `pending_transactions.len() as u32`. -/
inductive TransactionProcessingError where
  | NoTransactionToProcess
  | AccountLocked (pending : Nat)
  | InvalidAmount
  | NegativeAmount
  | InsufficientAmount
  | InvalidDisputeTarget
  | TransactionNotUnderDispute
  deriving DecidableEq, Repr

instance : DecidableEq (Except TransactionProcessingError Unit) := fun a b =>
  match a, b with
  | Except.error e₁, Except.error e₂ =>
    if h : e₁ = e₂ then isTrue (by rw [h]) else isFalse (by simp [h])
  | Except.error _, Except.ok _ => isFalse (by simp)
  | Except.ok _, Except.error _ => isFalse (by simp)
  | Except.ok _, Except.ok _ => isTrue rfl

/-- HashMap::get on the history, modelled as first-match lookup. -/
def historyLookup (h : List (Nat × Transaction)) (k : Nat) : Option Transaction :=
  match h with
  | [] => none
  | (k₂, t) :: rest => if k₂ = k then some t else historyLookup rest k

/-- HashMap::insert on the history: replaces the binding of `k` if present,
otherwise appends a new one. -/
def historyInsert (h : List (Nat × Transaction)) (k : Nat) (t : Transaction) :
    List (Nat × Transaction) :=
  match h with
  | [] => [(k, t)]
  | (k₂, u) :: rest =>
    if k₂ = k then (k, t) :: rest else (k₂, u) :: historyInsert rest k t

/-- HashMap::get_mut on the history followed by assigning
`transaction.transaction_type = ty`, modelled as updating the unique binding
of `k` in place (no-op if `k` is absent). -/
def historySetType (h : List (Nat × Transaction)) (k : Nat) (ty : TransactionType) :
    List (Nat × Transaction) :=
  match h with
  | [] => []
  | (k₂, t) :: rest =>
    if k₂ = k then (k₂, { t with transaction_type := ty }) :: rest
    else (k₂, t) :: historySetType rest k ty

/-- Account::new (src/src/account.rs lines 37-43): fresh account with the
initial transaction already enqueued and all balances defaulted to zero. -/
def Account.new (id : Nat) (initial_transaction : Transaction) : Account :=
  { client := id
    available := 0
    held := 0
    total := 0
    locked := false
    pending_transactions := [initial_transaction]
    transactions_history := [] }

/-- Account::add_transaction (src/src/account.rs lines 45-47): push_back on
the pending queue. -/
def Account.add_transaction (s : Account) (new_transaction : Transaction) : Account :=
  { s with pending_transactions := s.pending_transactions ++ [new_transaction] }

/-- Account::assert_balance (src/src/account.rs lines 49-52): recomputes
`total = available + held` and then asserts `total == available + held`;
after the recomputation the assertion holds by construction, so the model is
just the recomputation. -/
def Account.assert_balance (s : Account) : Account :=
  { s with total := s.available + s.held }

/-- Account::is_account_state_valid_for_transaction (src/src/account.rs
lines 54-62): errors with `AccountLocked(pending len)` iff locked. -/
def Account.is_account_state_valid_for_transaction (s : Account) :
    Except TransactionProcessingError Unit :=
  if s.locked then
    Except.error (TransactionProcessingError.AccountLocked s.pending_transactions.length)
  else
    Except.ok ()

/-- Account::deposit (src/src/account.rs lines 64-74). -/
def Account.deposit (s : Account) (amount : ℚ) :
    Except TransactionProcessingError Account :=
  match s.is_account_state_valid_for_transaction with
  | Except.error e => Except.error e
  | Except.ok _ =>
    if amount > 0 then
      Except.ok (Account.assert_balance { s with available := s.available + amount })
    else
      Except.error TransactionProcessingError.NegativeAmount

/-- Account::withdraw (src/src/account.rs lines 76-90). -/
def Account.withdraw (s : Account) (amount : ℚ) :
    Except TransactionProcessingError Account :=
  match s.is_account_state_valid_for_transaction with
  | Except.error e => Except.error e
  | Except.ok _ =>
    if amount > 0 then
      if s.available - amount ≥ 0 then
        Except.ok (Account.assert_balance { s with available := s.available - amount })
      else
        Except.error TransactionProcessingError.InsufficientAmount
    else
      Except.error TransactionProcessingError.NegativeAmount

/-- Account::dispute (src/src/account.rs lines 92-107).  The source reads
the stored amount with `.expect(..)`; history entries reachable in the
program always carry an amount, and the model uses `Option.getD 0` for the
unreachable `None` case. -/
def Account.dispute (s : Account) (transaction_id : Nat) :
    Except TransactionProcessingError Account :=
  match historyLookup s.transactions_history transaction_id with
  | some transaction =>
    if transaction.transaction_type = TransactionType.Deposit then
      Except.ok (Account.assert_balance
        { s with
          available := s.available - transaction.amount.getD 0
          held := s.held + transaction.amount.getD 0
          transactions_history :=
            historySetType s.transactions_history transaction_id TransactionType.Dispute })
    else
      Except.error TransactionProcessingError.InvalidDisputeTarget
  | none => Except.error TransactionProcessingError.InvalidDisputeTarget

/-- Account::find_dispute_transaction (src/src/account.rs lines 109-120):
returns the stored transaction when it exists and is tagged `Dispute`,
otherwise errors with `TransactionNotUnderDispute`. -/
def Account.find_dispute_transaction (s : Account) (dispute_id : Nat) :
    Except TransactionProcessingError Transaction :=
  match historyLookup s.transactions_history dispute_id with
  | some transaction =>
    if transaction.transaction_type = TransactionType.Dispute then
      Except.ok transaction
    else
      Except.error TransactionProcessingError.TransactionNotUnderDispute
  | none => Except.error TransactionProcessingError.TransactionNotUnderDispute

/-- Account::resolve (src/src/account.rs lines 122-133). -/
def Account.resolve (s : Account) (dispute_id : Nat) :
    Except TransactionProcessingError Account :=
  match s.find_dispute_transaction dispute_id with
  | Except.error e => Except.error e
  | Except.ok dispute_transaction =>
    Except.ok (Account.assert_balance
      { s with
        held := s.held - dispute_transaction.amount.getD 0
        available := s.available + dispute_transaction.amount.getD 0
        transactions_history :=
          historySetType s.transactions_history dispute_id TransactionType.Deposit })

/-- Account::chargeback (src/src/account.rs lines 135-146): removes the
held amount, tags the stored record `Chargeback`, locks the account, and
recomputes `total` via assert_balance (so `total` drops by the amount while
`available` is untouched). -/
def Account.chargeback (s : Account) (dispute_id : Nat) :
    Except TransactionProcessingError Account :=
  match s.find_dispute_transaction dispute_id with
  | Except.error e => Except.error e
  | Except.ok dispute_transaction =>
    Except.ok (Account.assert_balance
      { s with
        held := s.held - dispute_transaction.amount.getD 0
        locked := true
        transactions_history :=
          historySetType s.transactions_history dispute_id TransactionType.Chargeback })

/-- Account::process_pending_transaction (src/src/account.rs lines
148-190).  Returns the Result together with the post-state; on every error
raised after the pop the popped record stays consumed. -/
def Account.process_pending_transaction (s : Account) :
    Except TransactionProcessingError Unit × Account :=
  match s.is_account_state_valid_for_transaction with
  | Except.error e => (Except.error e, s)
  | Except.ok _ =>
    match s.pending_transactions with
    | [] => (Except.error TransactionProcessingError.NoTransactionToProcess, s)
    | transaction :: rest =>
      match transaction.transaction_type with
      | TransactionType.Deposit =>
        match transaction.amount with
        | none =>
          (Except.error TransactionProcessingError.InvalidAmount,
            { s with pending_transactions := rest })
        | some a =>
          match Account.deposit { s with pending_transactions := rest } a with
          | Except.error e => (Except.error e, { s with pending_transactions := rest })
          | Except.ok s₂ =>
            (Except.ok (),
              { s₂ with transactions_history :=
                  historyInsert s₂.transactions_history transaction.tx transaction })
      | TransactionType.Withdrawal =>
        match transaction.amount with
        | none =>
          (Except.error TransactionProcessingError.InvalidAmount,
            { s with pending_transactions := rest })
        | some a =>
          match Account.withdraw { s with pending_transactions := rest } a with
          | Except.error e => (Except.error e, { s with pending_transactions := rest })
          | Except.ok s₂ =>
            (Except.ok (),
              { s₂ with transactions_history :=
                  historyInsert s₂.transactions_history transaction.tx transaction })
      | TransactionType.Dispute =>
        match Account.dispute { s with pending_transactions := rest } transaction.tx with
        | Except.error e => (Except.error e, { s with pending_transactions := rest })
        | Except.ok s₂ => (Except.ok (), s₂)
      | TransactionType.Resolve =>
        match Account.resolve { s with pending_transactions := rest } transaction.tx with
        | Except.error e => (Except.error e, { s with pending_transactions := rest })
        | Except.ok s₂ => (Except.ok (), s₂)
      | TransactionType.Chargeback =>
        match Account.chargeback { s with pending_transactions := rest } transaction.tx with
        | Except.error e => (Except.error e, { s with pending_transactions := rest })
        | Except.ok s₂ => (Except.ok (), s₂)

/-! ## Basic structural lemmas -/

/-- A successful deposit never touches the pending queue. -/
theorem Account.deposit_ok_pending {s s₂ : Account} {a : ℚ}
    (h : s.deposit a = Except.ok s₂) :
    s₂.pending_transactions = s.pending_transactions := by
  unfold Account.deposit at h
  split at h
  · cases h
  · split at h
    · cases h; rfl
    · cases h

/-- A successful withdrawal never touches the pending queue. -/
theorem Account.withdraw_ok_pending {s s₂ : Account} {a : ℚ}
    (h : s.withdraw a = Except.ok s₂) :
    s₂.pending_transactions = s.pending_transactions := by
  unfold Account.withdraw at h
  split at h
  · cases h
  · split at h
    · split at h
      · cases h; rfl
      · cases h
    · cases h

/-- A successful dispute never touches the pending queue. -/
theorem Account.dispute_ok_pending {s s₂ : Account} {k : Nat}
    (h : s.dispute k = Except.ok s₂) :
    s₂.pending_transactions = s.pending_transactions := by
  unfold Account.dispute at h
  split at h
  · split at h
    · cases h; rfl
    · cases h
  · cases h

/-- A successful resolve never touches the pending queue. -/
theorem Account.resolve_ok_pending {s s₂ : Account} {k : Nat}
    (h : s.resolve k = Except.ok s₂) :
    s₂.pending_transactions = s.pending_transactions := by
  unfold Account.resolve at h
  split at h
  · cases h
  · cases h; rfl

/-- A successful chargeback never touches the pending queue. -/
theorem Account.chargeback_ok_pending {s s₂ : Account} {k : Nat}
    (h : s.chargeback k = Except.ok s₂) :
    s₂.pending_transactions = s.pending_transactions := by
  unfold Account.chargeback at h
  split at h
  · cases h
  · cases h; rfl

/-- A call to process_pending_transaction that returns Ok popped exactly the
front record of the queue. -/
theorem Account.process_ok_pending {s s₂ : Account} {u : Unit}
    (h : s.process_pending_transaction = (Except.ok u, s₂)) :
    ∃ t rest, s.pending_transactions = t :: rest ∧ s₂.pending_transactions = rest := by
  unfold Account.process_pending_transaction at h
  split at h
  · cases h
  · split at h
    · cases h
    · case _ t rest heq =>
      refine ⟨t, rest, heq, ?_⟩
      split at h
      · split at h
        · cases h
        · split at h
          · cases h
          · case _ s₃ hdep =>
            cases h
            exact Account.deposit_ok_pending hdep
      · split at h
        · cases h
        · split at h
          · cases h
          · case _ s₃ hwd =>
            cases h
            exact Account.withdraw_ok_pending hwd
      · split at h
        · cases h
        · case _ s₃ hd =>
          cases h
          exact Account.dispute_ok_pending hd
      · split at h
        · cases h
        · case _ s₃ hr =>
          cases h
          exact Account.resolve_ok_pending hr
      · split at h
        · cases h
        · case _ s₃ hc =>
          cases h
          exact Account.chargeback_ok_pending hc

/-- Per-account drain loop from src/src/main.rs lines 251-257: the body of
`while !account_lock.process_pending_transaction().is_err() {}` — keep
calling process_pending_transaction until a call returns an error, and keep
the state that call left behind. -/
def Account.drainAccount (s : Account) : Account :=
  match h : s.process_pending_transaction with
  | (Except.error _, s₂) => s₂
  | (Except.ok _, s₂) => s₂.drainAccount
termination_by s.pending_transactions.length
decreasing_by
  obtain ⟨t, rest, h₁, h₂⟩ := Account.process_ok_pending h
  rw [h₂, h₁]
  exact Nat.lt_succ_self _

/-! ## Reachability and the balance invariant -/

/-- States reachable from `s₀` by any sequence of enqueue
(add_transaction) and process_pending_transaction calls. -/
inductive Account.ReachableFrom (s₀ : Account) : Account → Prop where
  | refl : Account.ReachableFrom s₀ s₀
  | enqueue {s : Account} (t : Transaction) :
      Account.ReachableFrom s₀ s → Account.ReachableFrom s₀ (s.add_transaction t)
  | process {s : Account} :
      Account.ReachableFrom s₀ s →
      Account.ReachableFrom s₀ (Account.process_pending_transaction s).2

/-- A successful deposit leaves a balanced state. -/
theorem Account.deposit_ok_balanced {s s₂ : Account} {a : ℚ}
    (h : s.deposit a = Except.ok s₂) : s₂.total = s₂.available + s₂.held := by
  unfold Account.deposit at h
  split at h
  · cases h
  · split at h
    · cases h; rfl
    · cases h

/-- A successful withdrawal leaves a balanced state. -/
theorem Account.withdraw_ok_balanced {s s₂ : Account} {a : ℚ}
    (h : s.withdraw a = Except.ok s₂) : s₂.total = s₂.available + s₂.held := by
  unfold Account.withdraw at h
  split at h
  · cases h
  · split at h
    · split at h
      · cases h; rfl
      · cases h
    · cases h

/-- A successful dispute leaves a balanced state. -/
theorem Account.dispute_ok_balanced {s s₂ : Account} {k : Nat}
    (h : s.dispute k = Except.ok s₂) : s₂.total = s₂.available + s₂.held := by
  unfold Account.dispute at h
  split at h
  · split at h
    · cases h; rfl
    · cases h
  · cases h

/-- A successful resolve leaves a balanced state. -/
theorem Account.resolve_ok_balanced {s s₂ : Account} {k : Nat}
    (h : s.resolve k = Except.ok s₂) : s₂.total = s₂.available + s₂.held := by
  unfold Account.resolve at h
  split at h
  · cases h
  · cases h; rfl

/-- A successful chargeback leaves a balanced state. -/
theorem Account.chargeback_ok_balanced {s s₂ : Account} {k : Nat}
    (h : s.chargeback k = Except.ok s₂) : s₂.total = s₂.available + s₂.held := by
  unfold Account.chargeback at h
  split at h
  · cases h
  · cases h; rfl

/-- process_pending_transaction preserves the balance invariant, whether it
succeeds or fails. -/
theorem Account.process_balanced {s : Account}
    (hs : s.total = s.available + s.held) :
    (Account.process_pending_transaction s).2.total =
      (Account.process_pending_transaction s).2.available +
        (Account.process_pending_transaction s).2.held := by
  unfold Account.process_pending_transaction
  split
  · exact hs
  · split
    · exact hs
    · split
      · split
        · exact hs
        · split
          · exact hs
          · case _ _ _ _ _ _ _ s₂ hdep => exact @Account.deposit_ok_balanced _ s₂ _ hdep
      · split
        · exact hs
        · split
          · exact hs
          · case _ _ _ _ _ _ _ s₂ hwd => exact @Account.withdraw_ok_balanced _ s₂ _ hwd
      · split
        · exact hs
        · case _ _ _ _ _ s₂ hd => exact Account.dispute_ok_balanced hd
      · split
        · exact hs
        · case _ _ _ _ _ s₂ hr => exact Account.resolve_ok_balanced hr
      · split
        · exact hs
        · case _ _ _ _ _ s₂ hc => exact Account.chargeback_ok_balanced hc

/-- The balance invariant holds at every state reachable from a balanced
state. -/
theorem Account.reachable_balanced {s₀ s : Account}
    (h₀ : s₀.total = s₀.available + s₀.held)
    (h : Account.ReachableFrom s₀ s) : s.total = s.available + s.held := by
  induction h with
  | refl => exact h₀
  | enqueue t _ ih => exact ih
  | process _ ih => exact Account.process_balanced ih

/-! ## Concrete fixtures for witnesses and counterexamples -/

/-- Concrete deposit record: deposit of 5 for client 1, tx 1. -/
def txDeposit5 : Transaction :=
  { transaction_type := TransactionType.Deposit, client := 1, tx := 1, amount := some 5 }

/-- Concrete locked account with an empty pending queue. -/
def lockedEmptyAccount : Account :=
  { client := 1, available := 3, held := 2, total := 5, locked := true,
    pending_transactions := [], transactions_history := [] }

/-- Concrete locked account with one queued record. -/
def lockedAccountWithPending : Account :=
  { client := 2, available := 1, held := 0, total := 1, locked := true,
    pending_transactions := [txDeposit5], transactions_history := [] }

/-! ## Claims -/

/-- C1: for every Account and every sequence of enqueue/process_next
operations starting from a freshly created Account, after every
process_next call (Ok or error) the equation total == available + held
holds. -/
theorem C1_process_preserves_balance_invariant (id : Nat) (t₀ : Transaction)
    (s : Account) (h : Account.ReachableFrom (Account.new id t₀) s) :
    (Account.process_pending_transaction s).2.total =
      (Account.process_pending_transaction s).2.available +
        (Account.process_pending_transaction s).2.held :=
  Account.process_balanced (Account.reachable_balanced (by norm_num [Account.new]) h)

/-- Witness for C1 at the freshly created account for client 1 seeded with
a deposit of 5. -/
theorem C1_process_preserves_balance_invariant_witness :
    (Account.process_pending_transaction (Account.new 1 txDeposit5)).2.total =
      (Account.process_pending_transaction (Account.new 1 txDeposit5)).2.available +
        (Account.process_pending_transaction (Account.new 1 txDeposit5)).2.held :=
  C1_process_preserves_balance_invariant 1 txDeposit5 (Account.new 1 txDeposit5)
    Account.ReachableFrom.refl

/-- Processing a locked account returns `AccountLocked` with the queue
length and leaves the state untouched. -/
theorem Account.process_locked {s : Account} (h : s.locked = true) :
    Account.process_pending_transaction s =
      (Except.error (TransactionProcessingError.AccountLocked
        s.pending_transactions.length), s) := by
  unfold Account.process_pending_transaction Account.is_account_state_valid_for_transaction
  simp [h]

/-- Once locked, every state reachable by further enqueue/process steps is
still locked. -/
theorem Account.reachable_locked {s s₂ : Account} (hl : s.locked = true)
    (h : Account.ReachableFrom s s₂) : s₂.locked = true := by
  induction h with
  | refl => exact hl
  | enqueue t _ ih => exact ih
  | process _ ih => simp [Account.process_locked ih, ih]

/-- C2: once an Account is locked, every subsequent process_next call — at
every state reachable from the locked state, whatever the queue holds —
returns the Locked error and leaves the whole state (in particular
available, held, total) unchanged. -/
theorem C2_locked_is_permanent (s s₂ : Account) (hl : s.locked = true)
    (hr : Account.ReachableFrom s s₂) :
    Account.process_pending_transaction s₂ =
      (Except.error (TransactionProcessingError.AccountLocked
        s₂.pending_transactions.length), s₂) :=
  Account.process_locked (Account.reachable_locked hl hr)

/-- Witness for C2 at a concrete locked account holding one queued
deposit. -/
theorem C2_locked_is_permanent_witness :
    Account.process_pending_transaction lockedAccountWithPending =
      (Except.error (TransactionProcessingError.AccountLocked 1),
        lockedAccountWithPending) :=
  C2_locked_is_permanent lockedAccountWithPending lockedAccountWithPending rfl
    Account.ReachableFrom.refl

/-- C3 counterexample: a locked account with an empty pending queue.
process_next returns `AccountLocked 0`, not `NoTransactionToProcess`
(`Empty`): the locked check fires before the empty check, so the claim's
clause that the Empty error is returned even for locked accounts is false
on the code. -/
theorem C3_counterexample_locked_empty_returns_locked :
    lockedEmptyAccount.pending_transactions = [] ∧
    (Account.process_pending_transaction lockedEmptyAccount).1 =
      Except.error (TransactionProcessingError.AccountLocked 0) ∧
    (Account.process_pending_transaction lockedEmptyAccount).1 ≠
      Except.error TransactionProcessingError.NoTransactionToProcess := by
  refine ⟨rfl, rfl, ?_⟩
  decide

/-- C3 amended: for every Account with an empty pending queue,
process_next mutates nothing; it returns the Empty error when the account
is unlocked, and the Locked error when the account is locked. -/
theorem C3_empty_queue_rejected_without_mutation (s : Account)
    (h : s.pending_transactions = []) :
    Account.process_pending_transaction s =
      ((if s.locked then
          Except.error (TransactionProcessingError.AccountLocked 0)
        else
          Except.error TransactionProcessingError.NoTransactionToProcess), s) := by
  unfold Account.process_pending_transaction Account.is_account_state_valid_for_transaction
  by_cases hl : s.locked
  · simp [hl, h]
  · simp [hl, h]

/-- Witness for the amended C3 at a concrete unlocked account with an
empty queue. -/
theorem C3_empty_queue_rejected_without_mutation_witness :
    Account.process_pending_transaction
        { client := 3, available := 4, held := 0, total := 4, locked := false,
          pending_transactions := [], transactions_history := [] } =
      (Except.error TransactionProcessingError.NoTransactionToProcess,
        { client := 3, available := 4, held := 0, total := 4, locked := false,
          pending_transactions := [], transactions_history := [] }) :=
  C3_empty_queue_rejected_without_mutation _ rfl

/-! ## Dispatch and error-characterization lemmas -/

/-- On an unlocked account, deposit can only fail with `NegativeAmount`,
and only for a non-positive amount. -/
theorem Account.deposit_error_unlocked {s : Account} {a : ℚ}
    {e : TransactionProcessingError} (h : s.deposit a = Except.error e)
    (hl : s.locked = false) :
    e = TransactionProcessingError.NegativeAmount ∧ a ≤ 0 := by
  unfold Account.deposit Account.is_account_state_valid_for_transaction at h
  rw [hl] at h
  simp only [Bool.false_eq_true, if_false] at h
  split at h
  · cases h
  · case _ ha => cases h; exact ⟨rfl, not_lt.mp ha⟩

/-- On an unlocked account, withdraw can only fail with `NegativeAmount`
(non-positive amount) or `InsufficientAmount` (overdraft). -/
theorem Account.withdraw_error_unlocked {s : Account} {a : ℚ}
    {e : TransactionProcessingError} (h : s.withdraw a = Except.error e)
    (hl : s.locked = false) :
    (e = TransactionProcessingError.NegativeAmount ∧ a ≤ 0) ∨
      (e = TransactionProcessingError.InsufficientAmount ∧ 0 < a ∧ s.available - a < 0) := by
  unfold Account.withdraw Account.is_account_state_valid_for_transaction at h
  rw [hl] at h
  simp only [Bool.false_eq_true, if_false] at h
  split at h
  · case _ ha =>
    split at h
    · cases h
    · case _ hin => cases h; exact Or.inr ⟨rfl, ha, not_le.mp hin⟩
  · case _ ha => cases h; exact Or.inl ⟨rfl, not_lt.mp ha⟩

/-- dispute can only fail with `InvalidDisputeTarget`. -/
theorem Account.dispute_error {s : Account} {k : Nat}
    {e : TransactionProcessingError} (h : s.dispute k = Except.error e) :
    e = TransactionProcessingError.InvalidDisputeTarget := by
  unfold Account.dispute at h
  split at h
  · split at h
    · cases h
    · cases h; rfl
  · cases h; rfl

/-- find_dispute_transaction can only fail with
`TransactionNotUnderDispute`. -/
theorem Account.find_dispute_transaction_error {s : Account} {k : Nat}
    {e : TransactionProcessingError} (h : s.find_dispute_transaction k = Except.error e) :
    e = TransactionProcessingError.TransactionNotUnderDispute := by
  unfold Account.find_dispute_transaction at h
  split at h
  · split at h
    · cases h
    · cases h; rfl
  · cases h; rfl

/-- resolve can only fail with `TransactionNotUnderDispute`. -/
theorem Account.resolve_error {s : Account} {k : Nat}
    {e : TransactionProcessingError} (h : s.resolve k = Except.error e) :
    e = TransactionProcessingError.TransactionNotUnderDispute := by
  unfold Account.resolve at h
  split at h
  · case _ e₂ hf => cases h; exact Account.find_dispute_transaction_error hf
  · cases h

/-- chargeback can only fail with `TransactionNotUnderDispute`. -/
theorem Account.chargeback_error {s : Account} {k : Nat}
    {e : TransactionProcessingError} (h : s.chargeback k = Except.error e) :
    e = TransactionProcessingError.TransactionNotUnderDispute := by
  unfold Account.chargeback at h
  split at h
  · case _ e₂ hf => cases h; exact Account.find_dispute_transaction_error hf
  · cases h

/-- On an unlocked account whose front record is a Deposit,
process_pending_transaction reduces to the deposit dispatch branch. -/
theorem Account.process_deposit_front {s : Account} {t : Transaction}
    {rest : List Transaction} (hl : s.locked = false)
    (hp : s.pending_transactions = t :: rest)
    (hty : t.transaction_type = TransactionType.Deposit) :
    Account.process_pending_transaction s =
      match t.amount with
      | none =>
        (Except.error TransactionProcessingError.InvalidAmount,
          { s with pending_transactions := rest })
      | some a =>
        match Account.deposit { s with pending_transactions := rest } a with
        | Except.error e => (Except.error e, { s with pending_transactions := rest })
        | Except.ok s₂ =>
          (Except.ok (),
            { s₂ with transactions_history :=
                historyInsert s₂.transactions_history t.tx t }) := by
  unfold Account.process_pending_transaction Account.is_account_state_valid_for_transaction
  rw [hl]
  simp only [Bool.false_eq_true, if_false]
  rw [hp]
  dsimp only
  rw [hty]

/-- On an unlocked account whose front record is a Withdrawal,
process_pending_transaction reduces to the withdraw dispatch branch. -/
theorem Account.process_withdrawal_front {s : Account} {t : Transaction}
    {rest : List Transaction} (hl : s.locked = false)
    (hp : s.pending_transactions = t :: rest)
    (hty : t.transaction_type = TransactionType.Withdrawal) :
    Account.process_pending_transaction s =
      match t.amount with
      | none =>
        (Except.error TransactionProcessingError.InvalidAmount,
          { s with pending_transactions := rest })
      | some a =>
        match Account.withdraw { s with pending_transactions := rest } a with
        | Except.error e => (Except.error e, { s with pending_transactions := rest })
        | Except.ok s₂ =>
          (Except.ok (),
            { s₂ with transactions_history :=
                historyInsert s₂.transactions_history t.tx t }) := by
  unfold Account.process_pending_transaction Account.is_account_state_valid_for_transaction
  rw [hl]
  simp only [Bool.false_eq_true, if_false]
  rw [hp]
  dsimp only
  rw [hty]

/-- On an unlocked account whose front record is a Dispute,
process_pending_transaction reduces to the dispute dispatch branch. -/
theorem Account.process_dispute_front {s : Account} {t : Transaction}
    {rest : List Transaction} (hl : s.locked = false)
    (hp : s.pending_transactions = t :: rest)
    (hty : t.transaction_type = TransactionType.Dispute) :
    Account.process_pending_transaction s =
      match Account.dispute { s with pending_transactions := rest } t.tx with
      | Except.error e => (Except.error e, { s with pending_transactions := rest })
      | Except.ok s₂ => (Except.ok (), s₂) := by
  unfold Account.process_pending_transaction Account.is_account_state_valid_for_transaction
  rw [hl]
  simp only [Bool.false_eq_true, if_false]
  rw [hp]
  dsimp only
  rw [hty]

/-- On an unlocked account whose front record is a Resolve,
process_pending_transaction reduces to the resolve dispatch branch. -/
theorem Account.process_resolve_front {s : Account} {t : Transaction}
    {rest : List Transaction} (hl : s.locked = false)
    (hp : s.pending_transactions = t :: rest)
    (hty : t.transaction_type = TransactionType.Resolve) :
    Account.process_pending_transaction s =
      match Account.resolve { s with pending_transactions := rest } t.tx with
      | Except.error e => (Except.error e, { s with pending_transactions := rest })
      | Except.ok s₂ => (Except.ok (), s₂) := by
  unfold Account.process_pending_transaction Account.is_account_state_valid_for_transaction
  rw [hl]
  simp only [Bool.false_eq_true, if_false]
  rw [hp]
  dsimp only
  rw [hty]

/-- On an unlocked account whose front record is a Chargeback,
process_pending_transaction reduces to the chargeback dispatch branch. -/
theorem Account.process_chargeback_front {s : Account} {t : Transaction}
    {rest : List Transaction} (hl : s.locked = false)
    (hp : s.pending_transactions = t :: rest)
    (hty : t.transaction_type = TransactionType.Chargeback) :
    Account.process_pending_transaction s =
      match Account.chargeback { s with pending_transactions := rest } t.tx with
      | Except.error e => (Except.error e, { s with pending_transactions := rest })
      | Except.ok s₂ => (Except.ok (), s₂) := by
  unfold Account.process_pending_transaction Account.is_account_state_valid_for_transaction
  rw [hl]
  simp only [Bool.false_eq_true, if_false]
  rw [hp]
  dsimp only
  rw [hty]

/-- Looking up `k` after historySetType `k` returns the old record with its
type replaced. -/
theorem historyLookup_setType (h : List (Nat × Transaction)) (k : Nat)
    (ty : TransactionType) :
    historyLookup (historySetType h k ty) k =
      (historyLookup h k).map (fun t => { t with transaction_type := ty }) := by
  induction h with
  | nil => rfl
  | cons p rest ih =>
    obtain ⟨k₂, t⟩ := p
    by_cases hk : k₂ = k
    · simp [historySetType, historyLookup, hk]
    · simp [historySetType, historyLookup, hk, ih]

/-- C9: on an unlocked Account with a non-empty pending queue, every
erroring process_next call leaves balances, locked flag and settled
history exactly as before and consumes exactly the front record; moreover
no such error can be `NoTransactionToProcess` (`Empty`) or
`AccountLocked` (`Locked`). -/
theorem C9_error_consumes_front_preserves_state (s : Account) (t : Transaction)
    (rest : List Transaction) (e : TransactionProcessingError) (s' : Account)
    (hl : s.locked = false) (hp : s.pending_transactions = t :: rest)
    (h : Account.process_pending_transaction s = (Except.error e, s')) :
    s' = { s with pending_transactions := rest } ∧
    e ≠ TransactionProcessingError.NoTransactionToProcess ∧
    ∀ n, e ≠ TransactionProcessingError.AccountLocked n := by
  cases hty : t.transaction_type
  case Deposit =>
    rw [Account.process_deposit_front hl hp hty] at h
    cases hamt : t.amount
    case none =>
      rw [hamt] at h
      rw [Prod.mk.injEq] at h
      obtain ⟨h₁, h₂⟩ := h
      injection h₁ with h₁
      subst h₁
      exact ⟨h₂.symm, by simp, by simp⟩
    case some a =>
      rw [hamt] at h
      dsimp only at h
      split at h
      · case _ e₂ hdep =>
        rw [Prod.mk.injEq] at h
        obtain ⟨h₁, h₂⟩ := h
        injection h₁ with h₁
        subst h₁
        obtain ⟨he, -⟩ := Account.deposit_error_unlocked hdep hl
        subst he
        exact ⟨h₂.symm, by simp, by simp⟩
      · exact absurd h (by simp)
  case Withdrawal =>
    rw [Account.process_withdrawal_front hl hp hty] at h
    cases hamt : t.amount
    case none =>
      rw [hamt] at h
      rw [Prod.mk.injEq] at h
      obtain ⟨h₁, h₂⟩ := h
      injection h₁ with h₁
      subst h₁
      exact ⟨h₂.symm, by simp, by simp⟩
    case some a =>
      rw [hamt] at h
      dsimp only at h
      split at h
      · case _ e₂ hwd =>
        rw [Prod.mk.injEq] at h
        obtain ⟨h₁, h₂⟩ := h
        injection h₁ with h₁
        subst h₁
        rcases Account.withdraw_error_unlocked hwd hl with ⟨he, -⟩ | ⟨he, -⟩ <;>
          subst he <;> exact ⟨h₂.symm, by simp, by simp⟩
      · exact absurd h (by simp)
  case Dispute =>
    rw [Account.process_dispute_front hl hp hty] at h
    split at h
    · case _ e₂ hd =>
      rw [Prod.mk.injEq] at h
      obtain ⟨h₁, h₂⟩ := h
      injection h₁ with h₁
      subst h₁
      have he := Account.dispute_error hd
      subst he
      exact ⟨h₂.symm, by simp, by simp⟩
    · exact absurd h (by simp)
  case Resolve =>
    rw [Account.process_resolve_front hl hp hty] at h
    split at h
    · case _ e₂ hr =>
      rw [Prod.mk.injEq] at h
      obtain ⟨h₁, h₂⟩ := h
      injection h₁ with h₁
      subst h₁
      have he := Account.resolve_error hr
      subst he
      exact ⟨h₂.symm, by simp, by simp⟩
    · exact absurd h (by simp)
  case Chargeback =>
    rw [Account.process_chargeback_front hl hp hty] at h
    split at h
    · case _ e₂ hc =>
      rw [Prod.mk.injEq] at h
      obtain ⟨h₁, h₂⟩ := h
      injection h₁ with h₁
      subst h₁
      have he := Account.chargeback_error hc
      subst he
      exact ⟨h₂.symm, by simp, by simp⟩
    · exact absurd h (by simp)

/-- Concrete dispute record whose target id 999 is nowhere in history. -/
def txDisputeMissing : Transaction :=
  { transaction_type := TransactionType.Dispute, client := 4, tx := 999, amount := none }

/-- Concrete unlocked account whose only queued record is the dispute of a
missing id. -/
def accountWithBadDispute : Account :=
  { client := 4, available := 7, held := 1, total := 8, locked := false,
    pending_transactions := [txDisputeMissing], transactions_history := [] }

/-- Witness for C9 at a concrete account whose front record is a dispute of
an id absent from history. -/
theorem C9_error_consumes_front_preserves_state_witness :
    { accountWithBadDispute with pending_transactions := ([] : List Transaction) } =
      { accountWithBadDispute with pending_transactions := ([] : List Transaction) } ∧
    TransactionProcessingError.InvalidDisputeTarget ≠
      TransactionProcessingError.NoTransactionToProcess ∧
    TransactionProcessingError.InvalidDisputeTarget ≠
      TransactionProcessingError.AccountLocked 0 := by
  have A := C9_error_consumes_front_preserves_state accountWithBadDispute txDisputeMissing
    [] TransactionProcessingError.InvalidDisputeTarget
    { accountWithBadDispute with pending_transactions := ([] : List Transaction) }
    rfl rfl rfl
  exact ⟨A.1.symm ▸ rfl, A.2.1, A.2.2 0⟩

/-! ## The drain loop -/

/-- When process_pending_transaction errors, the drain loop returns the
post-state of that very call. -/
theorem Account.drainAccount_error {s s₂ : Account} {e : TransactionProcessingError}
    (h : Account.process_pending_transaction s = (Except.error e, s₂)) :
    Account.drainAccount s = s₂ := by
  unfold Account.drainAccount
  split
  · case _ e₂ s₃ heq =>
    rw [h] at heq
    rw [Prod.mk.injEq] at heq
    exact heq.2.symm
  · case _ u s₃ heq =>
    rw [h] at heq
    simp at heq

/-- When process_pending_transaction succeeds, the drain loop continues
from the post-state of that call. -/
theorem Account.drainAccount_ok {s s₂ : Account} {u : Unit}
    (h : Account.process_pending_transaction s = (Except.ok u, s₂)) :
    Account.drainAccount s = Account.drainAccount s₂ := by
  conv_lhs => rw [Account.drainAccount.eq_def]
  split
  · case _ e₂ s₃ heq =>
    rw [h] at heq
    simp at heq
  · case _ u₂ s₃ heq =>
    rw [h] at heq
    rw [Prod.mk.injEq] at heq
    rw [heq.2]

/-- Concrete overdrawing withdrawal record. -/
def txWithdraw5 : Transaction :=
  { transaction_type := TransactionType.Withdrawal, client := 5, tx := 1, amount := some 5 }

/-- Concrete valid deposit record queued behind the bad withdrawal. -/
def txDeposit3 : Transaction :=
  { transaction_type := TransactionType.Deposit, client := 5, tx := 2, amount := some 3 }

/-- Concrete unlocked zero-balance account whose queue holds an overdrawing
withdrawal followed by a valid deposit. -/
def haltedAccount : Account :=
  { client := 5, available := 0, held := 0, total := 0, locked := false,
    pending_transactions := [txWithdraw5, txDeposit3], transactions_history := [] }

/-- C4 counterexample: draining `haltedAccount` stops at the rejected
withdrawal (`InsufficientAmount`, neither Empty nor Locked), leaving an
unlocked account with a non-empty queue — the claim that the loop only
stops on Empty or Locked, and that afterwards the queue is empty or the
account locked, is false on the code. -/
theorem C4_counterexample_drain_leaves_unlocked_nonempty_queue :
    (Account.drainAccount haltedAccount).pending_transactions ≠ [] ∧
    (Account.drainAccount haltedAccount).locked = false := by
  have h : Account.process_pending_transaction haltedAccount =
      (Except.error TransactionProcessingError.InsufficientAmount,
        { haltedAccount with pending_transactions := [txDeposit3] }) := by
    rw [Account.process_withdrawal_front (s := haltedAccount) rfl rfl rfl]
    norm_num [txWithdraw5, haltedAccount, Account.withdraw,
      Account.is_account_state_valid_for_transaction]
  rw [Account.drainAccount_error h]
  exact ⟨by simp, rfl⟩

/-- C4 amended: the per-account drain loop stops at the first
process_next error of any kind — Empty, Locked, or any per-record
rejection — keeping the post-state of that erroring call (so failed
records are consumed and never re-enqueued, but the queue may remain
non-empty on an unlocked account). -/
theorem C4_drain_loop_stops_at_first_error (s s₂ : Account)
    (e : TransactionProcessingError)
    (h : Account.process_pending_transaction s = (Except.error e, s₂)) :
    Account.drainAccount s = s₂ :=
  Account.drainAccount_error h

/-- Witness for the amended C4 at `haltedAccount`. -/
theorem C4_drain_loop_stops_at_first_error_witness :
    Account.drainAccount haltedAccount =
      { haltedAccount with pending_transactions := [txDeposit3] } :=
  C4_drain_loop_stops_at_first_error haltedAccount
    { haltedAccount with pending_transactions := [txDeposit3] }
    TransactionProcessingError.InsufficientAmount
    (by
      rw [Account.process_withdrawal_front (s := haltedAccount) rfl rfl rfl]
      norm_num [txWithdraw5, haltedAccount, Account.withdraw,
        Account.is_account_state_valid_for_transaction])

/-! ## Success and failure characterizations of each dispatch branch -/

/-- Processing a front Dispute record whose target is a stored deposit of
amount `a`: the hold is taken and the stored record is retagged Dispute. -/
theorem Account.process_dispute_success {s : Account} {t tr : Transaction}
    {rest : List Transaction} {a : ℚ} (hl : s.locked = false)
    (hp : s.pending_transactions = t :: rest)
    (hty : t.transaction_type = TransactionType.Dispute)
    (hlook : historyLookup s.transactions_history t.tx = some tr)
    (hdep : tr.transaction_type = TransactionType.Deposit)
    (hamt : tr.amount = some a) :
    Account.process_pending_transaction s =
      (Except.ok (),
        { s with
          available := s.available - a
          held := s.held + a
          total := s.available - a + (s.held + a)
          pending_transactions := rest
          transactions_history :=
            historySetType s.transactions_history t.tx TransactionType.Dispute }) := by
  rw [Account.process_dispute_front hl hp hty]
  unfold Account.dispute Account.assert_balance
  dsimp only
  rw [hlook]
  dsimp only
  rw [if_pos hdep, hamt]
  simp only [Option.getD_some]

/-- Processing a front Dispute record whose target is absent from history
or not stored as a Deposit fails with `InvalidDisputeTarget` and only pops
the queue. -/
theorem Account.process_dispute_failure {s : Account} {t : Transaction}
    {rest : List Transaction} (hl : s.locked = false)
    (hp : s.pending_transactions = t :: rest)
    (hty : t.transaction_type = TransactionType.Dispute)
    (hu : ∀ u, historyLookup s.transactions_history t.tx = some u →
      u.transaction_type ≠ TransactionType.Deposit) :
    Account.process_pending_transaction s =
      (Except.error TransactionProcessingError.InvalidDisputeTarget,
        { s with pending_transactions := rest }) := by
  rw [Account.process_dispute_front hl hp hty]
  unfold Account.dispute
  dsimp only
  cases hlook : historyLookup s.transactions_history t.tx with
  | none => rfl
  | some u =>
    dsimp only
    rw [if_neg (hu u hlook)]

/-- Processing a front Resolve record whose target is stored under dispute
with amount `a`: the hold is reversed and the record is retagged Deposit. -/
theorem Account.process_resolve_success {s : Account} {t tr : Transaction}
    {rest : List Transaction} {a : ℚ} (hl : s.locked = false)
    (hp : s.pending_transactions = t :: rest)
    (hty : t.transaction_type = TransactionType.Resolve)
    (hlook : historyLookup s.transactions_history t.tx = some tr)
    (hdisp : tr.transaction_type = TransactionType.Dispute)
    (hamt : tr.amount = some a) :
    Account.process_pending_transaction s =
      (Except.ok (),
        { s with
          available := s.available + a
          held := s.held - a
          total := s.available + a + (s.held - a)
          pending_transactions := rest
          transactions_history :=
            historySetType s.transactions_history t.tx TransactionType.Deposit }) := by
  rw [Account.process_resolve_front hl hp hty]
  unfold Account.resolve Account.find_dispute_transaction Account.assert_balance
  dsimp only
  rw [hlook]
  dsimp only
  rw [if_pos hdisp]
  dsimp only
  rw [hamt]
  simp only [Option.getD_some]

/-- Processing a front Resolve record whose target is absent or not under
dispute fails with `TransactionNotUnderDispute` and only pops the queue. -/
theorem Account.process_resolve_failure {s : Account} {t : Transaction}
    {rest : List Transaction} (hl : s.locked = false)
    (hp : s.pending_transactions = t :: rest)
    (hty : t.transaction_type = TransactionType.Resolve)
    (hu : ∀ u, historyLookup s.transactions_history t.tx = some u →
      u.transaction_type ≠ TransactionType.Dispute) :
    Account.process_pending_transaction s =
      (Except.error TransactionProcessingError.TransactionNotUnderDispute,
        { s with pending_transactions := rest }) := by
  rw [Account.process_resolve_front hl hp hty]
  unfold Account.resolve Account.find_dispute_transaction
  dsimp only
  cases hlook : historyLookup s.transactions_history t.tx with
  | none => rfl
  | some u =>
    dsimp only
    rw [if_neg (hu u hlook)]

/-- Processing a front Chargeback record whose target is stored under
dispute with amount `a`: the held funds leave the account, the record is
retagged Chargeback, and the account is locked. -/
theorem Account.process_chargeback_success {s : Account} {t tr : Transaction}
    {rest : List Transaction} {a : ℚ} (hl : s.locked = false)
    (hp : s.pending_transactions = t :: rest)
    (hty : t.transaction_type = TransactionType.Chargeback)
    (hlook : historyLookup s.transactions_history t.tx = some tr)
    (hdisp : tr.transaction_type = TransactionType.Dispute)
    (hamt : tr.amount = some a) :
    Account.process_pending_transaction s =
      (Except.ok (),
        { s with
          held := s.held - a
          total := s.available + (s.held - a)
          locked := true
          pending_transactions := rest
          transactions_history :=
            historySetType s.transactions_history t.tx TransactionType.Chargeback }) := by
  rw [Account.process_chargeback_front hl hp hty]
  unfold Account.chargeback Account.find_dispute_transaction Account.assert_balance
  dsimp only
  rw [hlook]
  dsimp only
  rw [if_pos hdisp]
  dsimp only
  rw [hamt]
  simp only [Option.getD_some]

/-- Processing a front Chargeback record whose target is absent or not
under dispute fails with `TransactionNotUnderDispute` and only pops the
queue. -/
theorem Account.process_chargeback_failure {s : Account} {t : Transaction}
    {rest : List Transaction} (hl : s.locked = false)
    (hp : s.pending_transactions = t :: rest)
    (hty : t.transaction_type = TransactionType.Chargeback)
    (hu : ∀ u, historyLookup s.transactions_history t.tx = some u →
      u.transaction_type ≠ TransactionType.Dispute) :
    Account.process_pending_transaction s =
      (Except.error TransactionProcessingError.TransactionNotUnderDispute,
        { s with pending_transactions := rest }) := by
  rw [Account.process_chargeback_front hl hp hty]
  unfold Account.chargeback Account.find_dispute_transaction
  dsimp only
  cases hlook : historyLookup s.transactions_history t.tx with
  | none => rfl
  | some u =>
    dsimp only
    rw [if_neg (hu u hlook)]

/-- Processing a front Deposit record with no amount fails with
`InvalidAmount` and only pops the queue. -/
theorem Account.process_deposit_invalid_amount {s : Account} {t : Transaction}
    {rest : List Transaction} (hl : s.locked = false)
    (hp : s.pending_transactions = t :: rest)
    (hty : t.transaction_type = TransactionType.Deposit)
    (hamt : t.amount = none) :
    Account.process_pending_transaction s =
      (Except.error TransactionProcessingError.InvalidAmount,
        { s with pending_transactions := rest }) := by
  rw [Account.process_deposit_front hl hp hty, hamt]

/-- Processing a front Deposit record with a non-positive amount fails
with `NegativeAmount` and only pops the queue. -/
theorem Account.process_deposit_negative {s : Account} {t : Transaction}
    {rest : List Transaction} {a : ℚ} (hl : s.locked = false)
    (hp : s.pending_transactions = t :: rest)
    (hty : t.transaction_type = TransactionType.Deposit)
    (hamt : t.amount = some a) (ha : a ≤ 0) :
    Account.process_pending_transaction s =
      (Except.error TransactionProcessingError.NegativeAmount,
        { s with pending_transactions := rest }) := by
  rw [Account.process_deposit_front hl hp hty, hamt]
  unfold Account.deposit Account.is_account_state_valid_for_transaction
  dsimp only
  rw [hl]
  simp only [Bool.false_eq_true, if_false]
  rw [if_neg (not_lt.mpr ha)]

/-- Processing a front Deposit record with a positive amount succeeds:
available grows by the amount and the record enters the history under its
tx id. -/
theorem Account.process_deposit_success {s : Account} {t : Transaction}
    {rest : List Transaction} {a : ℚ} (hl : s.locked = false)
    (hp : s.pending_transactions = t :: rest)
    (hty : t.transaction_type = TransactionType.Deposit)
    (hamt : t.amount = some a) (ha : 0 < a) :
    Account.process_pending_transaction s =
      (Except.ok (),
        { s with
          available := s.available + a
          total := s.available + a + s.held
          pending_transactions := rest
          transactions_history := historyInsert s.transactions_history t.tx t }) := by
  rw [Account.process_deposit_front hl hp hty, hamt]
  unfold Account.deposit Account.is_account_state_valid_for_transaction Account.assert_balance
  dsimp only
  rw [hl]
  simp only [Bool.false_eq_true, if_false]
  rw [if_pos ha]

/-- Processing a front Withdrawal record with no amount fails with
`InvalidAmount` and only pops the queue. -/
theorem Account.process_withdraw_invalid_amount {s : Account} {t : Transaction}
    {rest : List Transaction} (hl : s.locked = false)
    (hp : s.pending_transactions = t :: rest)
    (hty : t.transaction_type = TransactionType.Withdrawal)
    (hamt : t.amount = none) :
    Account.process_pending_transaction s =
      (Except.error TransactionProcessingError.InvalidAmount,
        { s with pending_transactions := rest }) := by
  rw [Account.process_withdrawal_front hl hp hty, hamt]

/-- Processing a front Withdrawal record with a non-positive amount fails
with `NegativeAmount` and only pops the queue. -/
theorem Account.process_withdraw_negative {s : Account} {t : Transaction}
    {rest : List Transaction} {a : ℚ} (hl : s.locked = false)
    (hp : s.pending_transactions = t :: rest)
    (hty : t.transaction_type = TransactionType.Withdrawal)
    (hamt : t.amount = some a) (ha : a ≤ 0) :
    Account.process_pending_transaction s =
      (Except.error TransactionProcessingError.NegativeAmount,
        { s with pending_transactions := rest }) := by
  rw [Account.process_withdrawal_front hl hp hty, hamt]
  unfold Account.withdraw Account.is_account_state_valid_for_transaction
  dsimp only
  rw [hl]
  simp only [Bool.false_eq_true, if_false]
  rw [if_neg (not_lt.mpr ha)]

/-- Processing a front Withdrawal record with a positive amount exceeding
available fails with `InsufficientAmount` and only pops the queue. -/
theorem Account.process_withdraw_insufficient {s : Account} {t : Transaction}
    {rest : List Transaction} {a : ℚ} (hl : s.locked = false)
    (hp : s.pending_transactions = t :: rest)
    (hty : t.transaction_type = TransactionType.Withdrawal)
    (hamt : t.amount = some a) (ha : 0 < a) (hin : s.available - a < 0) :
    Account.process_pending_transaction s =
      (Except.error TransactionProcessingError.InsufficientAmount,
        { s with pending_transactions := rest }) := by
  rw [Account.process_withdrawal_front hl hp hty, hamt]
  unfold Account.withdraw Account.is_account_state_valid_for_transaction
  dsimp only
  rw [hl]
  simp only [Bool.false_eq_true, if_false]
  rw [if_pos ha, if_neg (not_le.mpr hin)]

/-- Processing a front Withdrawal record with a positive amount within
available succeeds: available shrinks by the amount and the record enters
the history under its tx id. -/
theorem Account.process_withdraw_success {s : Account} {t : Transaction}
    {rest : List Transaction} {a : ℚ} (hl : s.locked = false)
    (hp : s.pending_transactions = t :: rest)
    (hty : t.transaction_type = TransactionType.Withdrawal)
    (hamt : t.amount = some a) (ha : 0 < a) (hin : 0 ≤ s.available - a) :
    Account.process_pending_transaction s =
      (Except.ok (),
        { s with
          available := s.available - a
          total := s.available - a + s.held
          pending_transactions := rest
          transactions_history := historyInsert s.transactions_history t.tx t }) := by
  rw [Account.process_withdrawal_front hl hp hty, hamt]
  unfold Account.withdraw Account.is_account_state_valid_for_transaction Account.assert_balance
  dsimp only
  rw [hl]
  simp only [Bool.false_eq_true, if_false]
  rw [if_pos ha, if_pos hin]

/-- C6: on an unlocked Account whose front pending record is a Dispute:
when the target id is stored as a Deposit with amount `a`, processing
succeeds, moves `a` from available to held, and retags the stored record
under-dispute; when the target is absent or stored with any other tag
(withdrawal, already under dispute, charged back), processing fails with
`InvalidDisputeTarget` and only the front record is consumed. -/
theorem C6_dispute_requires_settled_deposit (s : Account) (t tr : Transaction)
    (rest : List Transaction) (a : ℚ) (hl : s.locked = false)
    (hp : s.pending_transactions = t :: rest)
    (hty : t.transaction_type = TransactionType.Dispute) :
    (historyLookup s.transactions_history t.tx = some tr →
      tr.transaction_type = TransactionType.Deposit → tr.amount = some a →
      Account.process_pending_transaction s =
        (Except.ok (),
          { s with
            available := s.available - a
            held := s.held + a
            total := s.available - a + (s.held + a)
            pending_transactions := rest
            transactions_history :=
              historySetType s.transactions_history t.tx TransactionType.Dispute }) ∧
      historyLookup
          (historySetType s.transactions_history t.tx TransactionType.Dispute) t.tx =
        some { tr with transaction_type := TransactionType.Dispute }) ∧
    ((∀ u, historyLookup s.transactions_history t.tx = some u →
        u.transaction_type ≠ TransactionType.Deposit) →
      Account.process_pending_transaction s =
        (Except.error TransactionProcessingError.InvalidDisputeTarget,
          { s with pending_transactions := rest })) := by
  constructor
  · intro hlook hdep hamt
    refine ⟨Account.process_dispute_success hl hp hty hlook hdep hamt, ?_⟩
    rw [historyLookup_setType, hlook]
    rfl
  · intro hu
    exact Account.process_dispute_failure hl hp hty hu

/-- Concrete settled deposit of 5 stored under id 11. -/
def trDeposit5Settled : Transaction :=
  { transaction_type := TransactionType.Deposit, client := 7, tx := 11, amount := some 5 }

/-- Concrete dispute record referencing id 11. -/
def txDispute11 : Transaction :=
  { transaction_type := TransactionType.Dispute, client := 7, tx := 11, amount := none }

/-- Concrete unlocked account holding the settled deposit 11 and queueing
its dispute. -/
def disputableAccount : Account :=
  { client := 7, available := 5, held := 0, total := 5, locked := false,
    pending_transactions := [txDispute11],
    transactions_history := [(11, trDeposit5Settled)] }

/-- Witness for C6 at `disputableAccount`. -/
theorem C6_dispute_requires_settled_deposit_witness :
    Account.process_pending_transaction disputableAccount =
      (Except.ok (),
        { disputableAccount with
          available := disputableAccount.available - 5
          held := disputableAccount.held + 5
          total := disputableAccount.available - 5 + (disputableAccount.held + 5)
          pending_transactions := []
          transactions_history :=
            historySetType disputableAccount.transactions_history txDispute11.tx
              TransactionType.Dispute }) ∧
    historyLookup
        (historySetType disputableAccount.transactions_history txDispute11.tx
          TransactionType.Dispute) txDispute11.tx =
      some { trDeposit5Settled with transaction_type := TransactionType.Dispute } :=
  (C6_dispute_requires_settled_deposit disputableAccount txDispute11 trDeposit5Settled
    [] 5 rfl rfl rfl).1 rfl rfl rfl

/-- C10: dispute performs no funds-sufficiency check: whenever the target
id is stored as a Deposit of amount `a`, the dispute succeeds regardless
of the current available balance, leaving available = old available - a
(possibly negative). -/
theorem C10_dispute_skips_sufficiency_check (s : Account) (t tr : Transaction)
    (rest : List Transaction) (a : ℚ) (hl : s.locked = false)
    (hp : s.pending_transactions = t :: rest)
    (hty : t.transaction_type = TransactionType.Dispute)
    (hlook : historyLookup s.transactions_history t.tx = some tr)
    (hdep : tr.transaction_type = TransactionType.Deposit)
    (hamt : tr.amount = some a) :
    (Account.process_pending_transaction s).1 = Except.ok () ∧
    (Account.process_pending_transaction s).2.available = s.available - a := by
  rw [Account.process_dispute_success hl hp hty hlook hdep hamt]
  exact ⟨rfl, rfl⟩

/-- Concrete settled deposit of 7 stored under id 12. -/
def trDeposit7Settled : Transaction :=
  { transaction_type := TransactionType.Deposit, client := 8, tx := 12, amount := some 7 }

/-- Concrete dispute record referencing id 12. -/
def txDispute12 : Transaction :=
  { transaction_type := TransactionType.Dispute, client := 8, tx := 12, amount := none }

/-- Concrete unlocked account with zero available balance that still holds
the settled deposit 12 in history (its funds were already withdrawn). -/
def brokeAccount : Account :=
  { client := 8, available := 0, held := 0, total := 0, locked := false,
    pending_transactions := [txDispute12],
    transactions_history := [(12, trDeposit7Settled)] }

/-- Witness for C10: with available = 0 < 7, the dispute still succeeds
and drives available to -7. -/
theorem C10_dispute_skips_sufficiency_check_witness :
    brokeAccount.available < 7 ∧
    (Account.process_pending_transaction brokeAccount).1 = Except.ok () ∧
    (Account.process_pending_transaction brokeAccount).2.available = -7 ∧
    (Account.process_pending_transaction brokeAccount).2.available < 0 := by
  have A := C10_dispute_skips_sufficiency_check brokeAccount txDispute12
    trDeposit7Settled [] 7 rfl rfl rfl rfl rfl rfl
  refine ⟨by norm_num [brokeAccount], A.1, ?_, ?_⟩
  · rw [A.2]
    norm_num [brokeAccount]
  · rw [A.2]
    norm_num [brokeAccount]

/-- C5: on an unlocked balanced Account whose front pending record is a
Chargeback: when the target id is stored under dispute with amount `a`,
processing succeeds, held and total drop by `a`, available is untouched,
the stored record is retagged Chargeback and the account locks; when the
target is absent or not under dispute, processing fails with
`TransactionNotUnderDispute` and only the front record is consumed. -/
theorem C5_chargeback_locks_and_removes_held (s : Account) (t tr : Transaction)
    (rest : List Transaction) (a : ℚ) (hl : s.locked = false)
    (hb : s.total = s.available + s.held)
    (hp : s.pending_transactions = t :: rest)
    (hty : t.transaction_type = TransactionType.Chargeback) :
    (historyLookup s.transactions_history t.tx = some tr →
      tr.transaction_type = TransactionType.Dispute → tr.amount = some a →
      Account.process_pending_transaction s =
        (Except.ok (),
          { s with
            held := s.held - a
            total := s.available + (s.held - a)
            locked := true
            pending_transactions := rest
            transactions_history :=
              historySetType s.transactions_history t.tx TransactionType.Chargeback }) ∧
      s.available + (s.held - a) = s.total - a ∧
      historyLookup
          (historySetType s.transactions_history t.tx TransactionType.Chargeback) t.tx =
        some { tr with transaction_type := TransactionType.Chargeback }) ∧
    ((∀ u, historyLookup s.transactions_history t.tx = some u →
        u.transaction_type ≠ TransactionType.Dispute) →
      Account.process_pending_transaction s =
        (Except.error TransactionProcessingError.TransactionNotUnderDispute,
          { s with pending_transactions := rest })) := by
  constructor
  · intro hlook hdisp hamt
    refine ⟨Account.process_chargeback_success hl hp hty hlook hdisp hamt, ?_, ?_⟩
    · rw [hb]
      ring
    · rw [historyLookup_setType, hlook]
      rfl
  · intro hu
    exact Account.process_chargeback_failure hl hp hty hu

/-- Concrete record under dispute for 6, stored under id 13. -/
def trUnderDispute6 : Transaction :=
  { transaction_type := TransactionType.Dispute, client := 9, tx := 13, amount := some 6 }

/-- Concrete chargeback record referencing id 13. -/
def txChargeback13 : Transaction :=
  { transaction_type := TransactionType.Chargeback, client := 9, tx := 13, amount := none }

/-- Concrete unlocked account with 6 held under dispute and its chargeback
queued. -/
def chargebackAccount : Account :=
  { client := 9, available := 2, held := 6, total := 8, locked := false,
    pending_transactions := [txChargeback13],
    transactions_history := [(13, trUnderDispute6)] }

/-- Witness for C5 at `chargebackAccount`. -/
theorem C5_chargeback_locks_and_removes_held_witness :
    Account.process_pending_transaction chargebackAccount =
      (Except.ok (),
        { chargebackAccount with
          held := chargebackAccount.held - 6
          total := chargebackAccount.available + (chargebackAccount.held - 6)
          locked := true
          pending_transactions := []
          transactions_history :=
            historySetType chargebackAccount.transactions_history txChargeback13.tx
              TransactionType.Chargeback }) ∧
    chargebackAccount.available + (chargebackAccount.held - 6) =
      chargebackAccount.total - 6 ∧
    historyLookup
        (historySetType chargebackAccount.transactions_history txChargeback13.tx
          TransactionType.Chargeback) txChargeback13.tx =
      some { trUnderDispute6 with transaction_type := TransactionType.Chargeback } :=
  (C5_chargeback_locks_and_removes_held chargebackAccount txChargeback13 trUnderDispute6
    [] 6 rfl (by norm_num [chargebackAccount]) rfl rfl).1 rfl rfl rfl

/-- Concrete deposit record with the non-positive amount -5. -/
def txDepositNeg : Transaction :=
  { transaction_type := TransactionType.Deposit, client := 6, tx := 9, amount := some (-5) }

/-- Concrete unlocked account queueing the -5 deposit. -/
def negDepositAccount : Account :=
  { client := 6, available := 1, held := 0, total := 1, locked := false,
    pending_transactions := [txDepositNeg], transactions_history := [] }

/-- C8 counterexample: a deposit with the present amount -5 ≤ 0 is
rejected with `NegativeAmount`, a distinct error from `InvalidAmount` —
the claim that InvalidAmount fires exactly when the amount is absent or
≤ 0 is false on the code, which reserves InvalidAmount for an absent
amount. -/
theorem C8_counterexample_nonpositive_amount_gives_NegativeAmount :
    txDepositNeg.amount = some (-5) ∧ ((-5 : ℚ) ≤ 0) ∧
    (Account.process_pending_transaction negDepositAccount).1 =
      Except.error TransactionProcessingError.NegativeAmount ∧
    (Account.process_pending_transaction negDepositAccount).1 ≠
      Except.error TransactionProcessingError.InvalidAmount := by
  have h := @Account.process_deposit_negative negDepositAccount txDepositNeg [] (-5)
    rfl rfl rfl rfl (by norm_num)
  refine ⟨rfl, by norm_num, by rw [h], by rw [h]; simp⟩

/-- C8 amended: on an unlocked Account whose front record is a Deposit or
Withdrawal, process_next fails with `InvalidAmount` exactly when the
amount is absent, with `NegativeAmount` exactly when the amount is present
and ≤ 0, and (for a Withdrawal with a valid amount) with
`InsufficientAmount` exactly when available - amount < 0; every rejection
only pops the front record; otherwise a Deposit adds and a Withdrawal
subtracts the amount from available and the record is stored in the
settled history under its tx id. -/
theorem C8_deposit_withdrawal_validation (s : Account) (t : Transaction)
    (rest : List Transaction) (hl : s.locked = false)
    (hp : s.pending_transactions = t :: rest)
    (hty : t.transaction_type = TransactionType.Deposit ∨
      t.transaction_type = TransactionType.Withdrawal) :
    (t.amount = none →
      Account.process_pending_transaction s =
        (Except.error TransactionProcessingError.InvalidAmount,
          { s with pending_transactions := rest })) ∧
    (∀ a : ℚ, t.amount = some a → a ≤ 0 →
      Account.process_pending_transaction s =
        (Except.error TransactionProcessingError.NegativeAmount,
          { s with pending_transactions := rest })) ∧
    (∀ a : ℚ, t.transaction_type = TransactionType.Withdrawal → t.amount = some a →
      0 < a → s.available - a < 0 →
      Account.process_pending_transaction s =
        (Except.error TransactionProcessingError.InsufficientAmount,
          { s with pending_transactions := rest })) ∧
    (∀ a : ℚ, t.transaction_type = TransactionType.Deposit → t.amount = some a →
      0 < a →
      Account.process_pending_transaction s =
        (Except.ok (),
          { s with
            available := s.available + a
            total := s.available + a + s.held
            pending_transactions := rest
            transactions_history := historyInsert s.transactions_history t.tx t })) ∧
    (∀ a : ℚ, t.transaction_type = TransactionType.Withdrawal → t.amount = some a →
      0 < a → 0 ≤ s.available - a →
      Account.process_pending_transaction s =
        (Except.ok (),
          { s with
            available := s.available - a
            total := s.available - a + s.held
            pending_transactions := rest
            transactions_history := historyInsert s.transactions_history t.tx t })) := by
  refine ⟨?_, ?_, ?_, ?_, ?_⟩
  · intro hamt
    rcases hty with h | h
    · exact Account.process_deposit_invalid_amount hl hp h hamt
    · exact Account.process_withdraw_invalid_amount hl hp h hamt
  · intro a hamt ha
    rcases hty with h | h
    · exact Account.process_deposit_negative hl hp h hamt ha
    · exact Account.process_withdraw_negative hl hp h hamt ha
  · intro a hw hamt ha hin
    exact Account.process_withdraw_insufficient hl hp hw hamt ha hin
  · intro a hd hamt ha
    exact Account.process_deposit_success hl hp hd hamt ha
  · intro a hw hamt ha hin
    exact Account.process_withdraw_success hl hp hw hamt ha hin

/-- Concrete unlocked account queueing a valid deposit of 3. -/
def okDepositAccount : Account :=
  { client := 5, available := 1, held := 2, total := 3, locked := false,
    pending_transactions := [txDeposit3], transactions_history := [] }

/-- Witness for the amended C8 at `okDepositAccount`, taking the
successful-deposit branch. -/
theorem C8_deposit_withdrawal_validation_witness :
    Account.process_pending_transaction okDepositAccount =
      (Except.ok (),
        { okDepositAccount with
          available := okDepositAccount.available + 3
          total := okDepositAccount.available + 3 + okDepositAccount.held
          pending_transactions := []
          transactions_history :=
            historyInsert okDepositAccount.transactions_history txDeposit3.tx
              txDeposit3 }) :=
  (C8_deposit_withdrawal_validation okDepositAccount txDeposit3 [] rfl rfl
    (Or.inl rfl)).2.2.2.1 3 rfl rfl (by norm_num)

/-- C7: on an unlocked balanced Account storing a settled deposit `tr` of
amount `a` under id `t₁.tx`, processing the queued Dispute and then the
queued Resolve of that id both succeed and restore available, held and
total to their pre-dispute values, with the stored record tagged
settled-deposit again. -/
theorem C7_dispute_resolve_round_trip (s : Account) (t₁ t₂ tr : Transaction)
    (rest : List Transaction) (a : ℚ) (hl : s.locked = false)
    (hb : s.total = s.available + s.held)
    (hp : s.pending_transactions = t₁ :: t₂ :: rest)
    (hty₁ : t₁.transaction_type = TransactionType.Dispute)
    (hty₂ : t₂.transaction_type = TransactionType.Resolve)
    (htx : t₂.tx = t₁.tx)
    (hlook : historyLookup s.transactions_history t₁.tx = some tr)
    (hdep : tr.transaction_type = TransactionType.Deposit)
    (hamt : tr.amount = some a) :
    (Account.process_pending_transaction s).1 = Except.ok () ∧
    (Account.process_pending_transaction
        (Account.process_pending_transaction s).2).1 = Except.ok () ∧
    (Account.process_pending_transaction
        (Account.process_pending_transaction s).2).2.available = s.available ∧
    (Account.process_pending_transaction
        (Account.process_pending_transaction s).2).2.held = s.held ∧
    (Account.process_pending_transaction
        (Account.process_pending_transaction s).2).2.total = s.total ∧
    historyLookup (Account.process_pending_transaction
        (Account.process_pending_transaction s).2).2.transactions_history t₁.tx =
      some tr ∧
    (Account.process_pending_transaction
        (Account.process_pending_transaction s).2).2.pending_transactions = rest := by
  obtain ⟨ty, tc, ttx, tam⟩ := tr
  dsimp only at hdep hamt
  subst hdep
  subst hamt
  have h₁ := Account.process_dispute_success hl hp hty₁ hlook rfl rfl
  have hl₁ : (Account.process_pending_transaction s).2.locked = false := by
    rw [h₁]
    exact hl
  have hp₁ : (Account.process_pending_transaction s).2.pending_transactions =
      t₂ :: rest := by
    rw [h₁]
  have hlook₁ : historyLookup
      (Account.process_pending_transaction s).2.transactions_history t₂.tx =
      some (Transaction.mk TransactionType.Dispute tc ttx (some a)) := by
    rw [h₁]
    dsimp only
    rw [htx, historyLookup_setType, hlook]
    rfl
  have h₂ := Account.process_resolve_success hl₁ hp₁ hty₂ hlook₁ rfl rfl
  refine ⟨by rw [h₁], by rw [h₂], ?_, ?_, ?_, ?_, by rw [h₂]⟩
  · rw [h₂]
    dsimp only
    rw [h₁]
    dsimp only
    ring
  · rw [h₂]
    dsimp only
    rw [h₁]
    dsimp only
    ring
  · rw [h₂]
    dsimp only
    rw [h₁]
    dsimp only
    rw [hb]
    ring
  · rw [h₂]
    dsimp only
    rw [htx, historyLookup_setType, h₁]
    dsimp only
    rw [historyLookup_setType, hlook]
    rfl

/-- Concrete settled deposit of 5 stored under id 14. -/
def trDeposit5RoundTrip : Transaction :=
  { transaction_type := TransactionType.Deposit, client := 11, tx := 14, amount := some 5 }

/-- Concrete dispute record referencing id 14. -/
def txDispute14 : Transaction :=
  { transaction_type := TransactionType.Dispute, client := 11, tx := 14, amount := none }

/-- Concrete resolve record referencing id 14. -/
def txResolve14 : Transaction :=
  { transaction_type := TransactionType.Resolve, client := 11, tx := 14, amount := none }

/-- Concrete unlocked account queueing the dispute of deposit 14 followed
by its resolve. -/
def roundTripAccount : Account :=
  { client := 11, available := 5, held := 0, total := 5, locked := false,
    pending_transactions := [txDispute14, txResolve14],
    transactions_history := [(14, trDeposit5RoundTrip)] }

/-- Witness for C7 at `roundTripAccount`. -/
theorem C7_dispute_resolve_round_trip_witness :
    (Account.process_pending_transaction roundTripAccount).1 = Except.ok () ∧
    (Account.process_pending_transaction
        (Account.process_pending_transaction roundTripAccount).2).1 = Except.ok () ∧
    (Account.process_pending_transaction
        (Account.process_pending_transaction roundTripAccount).2).2.available =
      roundTripAccount.available ∧
    (Account.process_pending_transaction
        (Account.process_pending_transaction roundTripAccount).2).2.held =
      roundTripAccount.held ∧
    (Account.process_pending_transaction
        (Account.process_pending_transaction roundTripAccount).2).2.total =
      roundTripAccount.total ∧
    historyLookup (Account.process_pending_transaction
        (Account.process_pending_transaction roundTripAccount).2).2.transactions_history
        txDispute14.tx =
      some trDeposit5RoundTrip ∧
    (Account.process_pending_transaction
        (Account.process_pending_transaction roundTripAccount).2).2.pending_transactions =
      [] :=
  C7_dispute_resolve_round_trip roundTripAccount txDispute14 txResolve14
    trDeposit5RoundTrip [] 5 rfl (by norm_num [roundTripAccount]) rfl rfl rfl rfl rfl
    rfl rfl
